import Mathlib

/-!
Notebook API endpoints of the master (`master/internal/api_notebook.go`).

A shallow embedding of the notebook endpoints of the master's gRPC API server:
`GetNotebooks`, `NotebookLogs` (with its `onBatch` callback) and `LaunchNotebook`.

Conventions of the embedding.

* Go machine integers are mathematical integers; a conversion `int32(x)` or `int(x)`
  is the explicit two's-complement reduction `wrapSigned`.
* A Go `error` is `Option GoError`, `none` being `nil`.
* Calls that leave the endpoint (actor system, gRPC stream) are recorded, in program
  order, in an explicit trace that the endpoint returns next to its Go results.
* Collaborators whose code is outside this file of the repository are fields of the
  `apiServer` and `ActorSystem` structures, so every theorem quantifies over them,
  except for the few helpers that are modelled from the specification and say so.
-/

namespace Determined

/-! ## Machine integers -/

/-- Two's-complement reduction of an integer to a signed `w`-bit machine integer. -/
def wrapSigned (w : Nat) (x : Int) : Int :=
  (x + 2 ^ (w - 1)) % 2 ^ w - 2 ^ (w - 1)

/-- Go conversion `int32(x)`. -/
def toInt32 (x : Int) : Int := wrapSigned 32 x

/-- Go conversion `int(x)`, with the 64-bit `int` of the platforms the master runs on. -/
def toInt (x : Int) : Int := wrapSigned 64 x

/-- The values of Go type `int32`. -/
def isInt32 (x : Int) : Prop := -2147483648 ≤ x ∧ x ≤ 2147483647

/-- The values of Go type `int` (64 bits). -/
def isInt (x : Int) : Prop := -9223372036854775808 ≤ x ∧ x ≤ 9223372036854775807

instance (x : Int) : Decidable (isInt32 x) := by
  unfold isInt32; infer_instance

instance (x : Int) : Decidable (isInt x) := by
  unfold isInt; infer_instance

/-! ## Errors -/

/-- The gRPC status codes the endpoints can surface. -/
inductive Code where
  | Canceled
  | Unknown
  | InvalidArgument
  | NotFound
  | ResourceExhausted
  | Aborted
  | Internal
  | Unavailable
deriving DecidableEq, Repr

/-- A non-nil Go `error`: a status code and its message. -/
structure GoError where
  code : Code
  msg : String
deriving DecidableEq, Repr

/-! ## Log entries, batches and the push stream -/

/-- Go `logger.Entry`, with the two fields the endpoint reads (`ID` is a Go `int`). -/
structure logger.Entry where
  ID : Int
  Message : String
deriving DecidableEq, Repr

/-- Protobuf `logv1.LogEntry` (`Id` is an `int32` on the wire). -/
structure logv1.LogEntry where
  Id : Int
  Message : String
deriving DecidableEq, Repr

/-- Protobuf `apiv1.NotebookLogsResponse`. -/
structure apiv1.NotebookLogsResponse where
  LogEntry : logv1.LogEntry
deriving DecidableEq, Repr

/-- Protobuf `apiv1.NotebookLogsRequest` (`Offset` and `Limit` are `int32`). -/
structure apiv1.NotebookLogsRequest where
  NotebookId : String
  Offset : Int
  Limit : Int
  Follow : Bool
deriving DecidableEq, Repr

/-- Go `api.BatchRequest` (`Offset` and `Limit` are Go `int`). -/
structure api.BatchRequest where
  Offset : Int
  Limit : Int
  Follow : Bool
deriving DecidableEq, Repr

/-- The server side of the push stream, `apiv1.Determined_NotebookLogsServer`.
`sendResult k m` is the outcome of the `k`-th call of `Send` (counted from 0) when it
is given message `m`; `attempted` lists every message `Send` was called with and
`sent` the ones whose `Send` returned `nil`, both in call order. -/
structure NotebookLogsServer where
  sendResult : Nat → apiv1.NotebookLogsResponse → Option GoError
  attempted : List apiv1.NotebookLogsResponse
  sent : List apiv1.NotebookLogsResponse

/-- One call `resp.Send(m)`. -/
def NotebookLogsServer.Send (s : NotebookLogsServer) (m : apiv1.NotebookLogsResponse) :
    Option GoError × NotebookLogsServer :=
  match s.sendResult s.attempted.length m with
  | none => (none, { s with attempted := s.attempted ++ [m], sent := s.sent ++ [m] })
  | some e => (some e, { s with attempted := s.attempted ++ [m] })

/-- Go `api.Batch`, holding `*logger.Entry` values in buffer order. -/
structure api.Batch where
  entries : List logger.Entry
deriving DecidableEq, Repr

/-- The loop of `ForEach` over the entries that remain. -/
def api.forEachLoop {σ : Type} (f : logger.Entry → σ → Option GoError × σ) :
    List logger.Entry → σ → Option GoError × σ
  | [], s => (none, s)
  | r :: rest, s =>
    match f r s with
    | (some e, s1) => (some e, s1)
    | (none, s1) => api.forEachLoop f rest s1

/-- Modelled from the spec: the method `ForEach` of the interface `api.Batch` is
implemented outside `api_notebook.go`. A batch is "an ordered sequence of LogEntry";
delivery order equals append order with no entry skipped or repeated, and a stream
error ends delivery and is surfaced. So `ForEach f` calls `f` on the entries in order,
stops at the first call that returns an error and returns that error, and returns
`nil` when no call fails. -/
def api.Batch.ForEach {σ : Type} (b : api.Batch)
    (f : logger.Entry → σ → Option GoError × σ) (s : σ) : Option GoError × σ :=
  api.forEachLoop f b.entries s

/-- The message `onBatch` builds from one entry (lines 63-65). -/
def NotebookLogs.response (lr : logger.Entry) : apiv1.NotebookLogsResponse :=
  { LogEntry := { Id := toInt32 lr.ID, Message := lr.Message } }

/-- The function literal `onBatch` hands to `ForEach` (lines 61-66): it sends the
message built from the entry and returns the result of `Send`. The type assertion
`r.(*logger.Entry)` cannot fail here, a batch holding log entries only. -/
def NotebookLogs.sendEntry (lr : logger.Entry) (resp : NotebookLogsServer) :
    Option GoError × NotebookLogsServer :=
  resp.Send (NotebookLogs.response lr)

/-- The closure `onBatch` of `NotebookLogs` (lines 60-67). -/
def NotebookLogs.onBatch (b : api.Batch) (resp : NotebookLogsServer) :
    Option GoError × NotebookLogsServer :=
  b.ForEach NotebookLogs.sendEntry resp

/-! ## Request validation -/

/-- Modelled from the spec: `grpcutil.ValidateLimit` is defined outside
`api_notebook.go`. The spec requires that "limit must be non-negative"; the check
passes exactly when `0 ≤ limit` and carries the message of its failure. -/
def grpcutil.ValidateLimit (limit : Int) : Bool × String :=
  (decide (0 ≤ limit), "Limit must be >= 0")

/-- Modelled from the spec: `grpcutil.ValidateRequest` is defined outside
`api_notebook.go`. A request that fails a check is rejected with `InvalidArgument`
"before any data is read"; a request that passes every check yields `nil`. -/
def grpcutil.ValidateRequest : List (Bool × String) → Option GoError
  | [] => none
  | (ok, msg) :: rest =>
    if ok then grpcutil.ValidateRequest rest else some ⟨Code.InvalidArgument, msg⟩

/-! ## Actor system -/

/-- An actor address, as its path components. -/
structure actor.Address where
  path : List String
deriving DecidableEq, Repr

/-- Go `actor.Addr(components...)`. -/
def actor.Addr (components : List String) : actor.Address := ⟨components⟩

/-- Go `Address.Child(name)`. -/
def actor.Address.Child (a : actor.Address) (name : String) : actor.Address :=
  ⟨a.path ++ [name]⟩

/-- The package variable `notebooksAddr` (line 20). -/
def notebooksAddr : actor.Address := actor.Addr ["notebooks"]

/-- The callback type handed to the log-stream bridge. -/
abbrev api.OnBatchFn : Type :=
  api.Batch → NotebookLogsServer → Option GoError × NotebookLogsServer

/-- The calls `NotebookLogs` makes on the actor system, in program order. -/
inductive LogsEffect where
  | get (addr : actor.Address)
  | actorOf (addr : actor.Address) (eventManager : Option actor.Address)
      (logRequest : api.BatchRequest)
deriving DecidableEq, Repr

/-- The part of the actor system (`a.m.system`) that `NotebookLogs` uses.
`Get` answers an address lookup (`none` is a nil reference), `uuid` is the value
`uuid.New().String()` yields, and `logStream` is the log-stream bridge actor
(`api.NewLogStreamProcessor` registered with `MustActorOf` and awaited with
`AwaitTermination`): given the events actor, the query and the callback it drives
the stream and yields the termination error. Its code is outside this file, so it
is an arbitrary function here. -/
structure ActorSystem where
  Get : actor.Address → Option actor.Address
  uuid : String
  logStream : Option actor.Address → api.BatchRequest → api.OnBatchFn →
    NotebookLogsServer → Option GoError × NotebookLogsServer

/-- What a call of `NotebookLogs` amounts to: the returned error, the calls made on
the actor system, and the stream afterwards. -/
structure LogsResult where
  err : Option GoError
  effects : List LogsEffect
  resp : NotebookLogsServer

/-- The endpoint `apiServer.NotebookLogs` (lines 43-78). -/
def NotebookLogs (system : ActorSystem) (req : apiv1.NotebookLogsRequest)
    (resp : NotebookLogsServer) : LogsResult :=
  match grpcutil.ValidateRequest [grpcutil.ValidateLimit req.Limit] with
  | some err => ⟨some err, [], resp⟩
  | none =>
    let cmdManagerAddr := actor.Addr ["notebooks", req.NotebookId]
    let eventManager := system.Get (cmdManagerAddr.Child "events")
    let logRequest : api.BatchRequest :=
      { Offset := toInt req.Offset, Limit := toInt req.Limit, Follow := req.Follow }
    let bridgeAddr := cmdManagerAddr.Child ("logStream-" ++ system.uuid)
    let r := system.logStream eventManager logRequest NotebookLogs.onBatch resp
    ⟨r.1, [LogsEffect.get (cmdManagerAddr.Child "events"),
           LogsEffect.actorOf bridgeAddr eventManager logRequest], r.2⟩

/-! ## Listing notebooks -/

/-- Protobuf enum `apiv1.OrderBy`. -/
inductive apiv1.OrderBy where
  | ORDER_BY_UNSPECIFIED
  | ORDER_BY_ASC
  | ORDER_BY_DESC
deriving DecidableEq, Repr

/-- Protobuf enum `apiv1.GetNotebooksRequest_SortBy`; the endpoint itself names only
`SORT_BY_ID`. -/
inductive apiv1.GetNotebooksRequest_SortBy where
  | SORT_BY_UNSPECIFIED
  | SORT_BY_ID
  | SORT_BY_DESCRIPTION
  | SORT_BY_START_TIME
deriving DecidableEq, Repr

/-- Protobuf `apiv1.GetNotebooksRequest` (`Offset` and `Limit` are `int32`). -/
structure apiv1.GetNotebooksRequest where
  SortBy : apiv1.GetNotebooksRequest_SortBy
  OrderBy : apiv1.OrderBy
  Offset : Int
  Limit : Int
deriving DecidableEq, Repr

/-- Modelled from the spec: the message `apiv1.Pagination` is declared outside
`api_notebook.go`; the spec asks of the pagination info that it "report total count
independent of limit", which is the one field kept here. -/
structure apiv1.Pagination where
  Total : Int
deriving DecidableEq, Repr

/-- Protobuf `apiv1.GetNotebooksResponse` over notebooks of type `N`. -/
structure apiv1.GetNotebooksResponse (N : Type) where
  Notebooks : List N
  Pagination : Option apiv1.Pagination

/-- What `a.paginate(&p, &values, offset, limit)` leaves behind: the pagination
pointer, the slice, and the returned error. -/
structure PageResult (N : Type) where
  pagination : Option apiv1.Pagination
  values : List N
  err : Option GoError

/-- The number of items a page may hold for a requested `limit`: a limit that is zero
or negative is clamped to the server-defined maximum. -/
def pageSize (maxLimit : Nat) (limit : Int) : Nat :=
  if limit ≤ 0 then maxLimit else limit.toNat

/-- Modelled from the spec: the helper `apiServer.paginate` is defined outside
`api_notebook.go`. Per the spec, "offset beyond total count yields an empty page, not
an error; limit ≤ 0 is clamped to a server-defined maximum", and the pagination info
reports the total count independent of the limit. The page is the window of at most
`pageSize maxLimit limit` items that starts at `offset`; the spec says nothing about
a negative offset, which starts the window at the first item here. -/
def paginate {N : Type} (maxLimit : Nat) (_p : Option apiv1.Pagination) (values : List N)
    (offset limit : Int) : PageResult N :=
  { pagination := some { Total := (values.length : Int) }
    values := (values.drop offset.toNat).take (pageSize maxLimit limit)
    err := none }

/-- The calls `GetNotebooks` makes, in program order. -/
inductive ListEffect (N : Type) where
  | actorRequest (addr : String)
  | sort (values : List N) (orderBy : apiv1.OrderBy)
      (sortBy defaultSortBy : apiv1.GetNotebooksRequest_SortBy)
  | paginate (p : Option apiv1.Pagination) (values : List N) (offset limit : Int)

/-! ## Launching a notebook -/

/-- Go `protoCommandParams`: template name, config and files of a launch request. -/
structure protoCommandParams (C F : Type) where
  TemplateName : String
  Config : C
  Files : F

/-- Protobuf `apiv1.LaunchNotebookRequest`. -/
structure apiv1.LaunchNotebookRequest (C F : Type) where
  TemplateName : String
  Config : C
  Files : F

/-- Protobuf `apiv1.LaunchNotebookResponse`. -/
structure apiv1.LaunchNotebookResponse (N : Type) where
  Notebook : N

/-- Go `command.NotebookLaunchRequest`. -/
structure command.NotebookLaunchRequest (P U : Type) where
  CommandParams : P
  User : U

/-- The two messages `LaunchNotebook` asks actors: the launch request, and the empty
`&notebookv1.Notebook{}` that queries a supervisor for its notebook. -/
inductive AskMsg (P U : Type) where
  | launch (r : command.NotebookLaunchRequest P U)
  | notebookQuery

/-- One call of `a.m.system.AskAt(addr, msg)`. -/
structure Ask (P U : Type) where
  addr : actor.Address
  msg : AskMsg P U

/-- The dynamically typed value an actor response holds. -/
inductive ActorValue (N : Type) where
  | taskID (t : String)
  | notebook (n : N)
  | other

/-- Go `actor.Response`, reduced to what `LaunchNotebook` observes of it: `err` is the
result of `api.ProcessActorResponseError` on the response and `value` the result of
`Get()`. -/
structure actor.Response (N : Type) where
  err : Option GoError
  value : ActorValue N

/-- Go `api.ProcessActorResponseError(&resp)`, whose code is outside this file: its
result is carried by the response. -/
def api.ProcessActorResponseError {N : Type} (r : actor.Response N) : Option GoError :=
  r.err

/-- Go `resp.Get()`. -/
def actor.Response.Get {N : Type} (r : actor.Response N) : ActorValue N :=
  r.value

/-- How a Go call with results `(*T, error)` ends: it returns, or a failed type
assertion panics. -/
inductive Outcome (α : Type) where
  | ret (resp : Option α) (err : Option GoError)
  | panic

/-- The collaborators of the API server that `GetNotebooks` and `LaunchNotebook`
use; their code is outside `api_notebook.go`, so they are arbitrary functions.

* `actorRequest addr req` is `a.actorRequest(addr, req, &resp)`: the error, or the
  response the actor at `addr` filled in.
* `sort values orderBy sortBy defaultSortBy` is `a.sort`, giving the slice afterwards;
  the slice is passed by value, so its length is the same afterwards (`sort_length`).
* `paginate p values offset limit` is `a.paginate(&p, &values, offset, limit)`.
* `prepareLaunchParams` is `a.prepareLaunchParams(ctx, params)`.
* `AskAt asked addr msg` is `a.m.system.AskAt(addr, msg)`, where `asked` lists the
  asks this call of the endpoint has already made. -/
structure apiServer (C F P U N : Type) where
  actorRequest : String → apiv1.GetNotebooksRequest →
    Except GoError (apiv1.GetNotebooksResponse N)
  sort : List N → apiv1.OrderBy → apiv1.GetNotebooksRequest_SortBy →
    apiv1.GetNotebooksRequest_SortBy → List N
  sort_length : ∀ values orderBy sortBy defaultSortBy,
    (sort values orderBy sortBy defaultSortBy).length = values.length
  paginate : Option apiv1.Pagination → List N → Int → Int → PageResult N
  prepareLaunchParams : protoCommandParams C F → Except GoError (P × U)
  AskAt : List (Ask P U) → actor.Address → AskMsg P U → actor.Response N

/-- What a call of `GetNotebooks` amounts to: the two Go results and the calls made. -/
structure ListResult (N : Type) where
  resp : Option (apiv1.GetNotebooksResponse N)
  err : Option GoError
  effects : List (ListEffect N)

/-- The endpoint `apiServer.GetNotebooks` (lines 22-31). -/
def GetNotebooks {C F P U N : Type} (a : apiServer C F P U N)
    (req : apiv1.GetNotebooksRequest) : ListResult N :=
  match a.actorRequest "/notebooks" req with
  | Except.error err => ⟨none, some err, [ListEffect.actorRequest "/notebooks"]⟩
  | Except.ok resp =>
    let sorted := a.sort resp.Notebooks req.OrderBy req.SortBy
      apiv1.GetNotebooksRequest_SortBy.SORT_BY_ID
    let page := a.paginate resp.Pagination sorted req.Offset req.Limit
    ⟨some { Notebooks := page.values, Pagination := page.pagination }, page.err,
      [ListEffect.actorRequest "/notebooks",
       ListEffect.sort resp.Notebooks req.OrderBy req.SortBy
         apiv1.GetNotebooksRequest_SortBy.SORT_BY_ID,
       ListEffect.paginate resp.Pagination sorted req.Offset req.Limit]⟩

/-- What a call of `LaunchNotebook` amounts to: how it ends and the asks it made. -/
structure LaunchResult (P U N : Type) where
  outcome : Outcome (apiv1.LaunchNotebookResponse N)
  asks : List (Ask P U)

/-- The endpoint `apiServer.LaunchNotebook` (lines 80-110). -/
def LaunchNotebook {C F P U N : Type} (a : apiServer C F P U N)
    (req : apiv1.LaunchNotebookRequest C F) : LaunchResult P U N :=
  match a.prepareLaunchParams
      { TemplateName := req.TemplateName, Config := req.Config, Files := req.Files } with
  | Except.error err => ⟨Outcome.ret none (some err), []⟩
  | Except.ok (cmdParams, user) =>
    let notebookLaunchReq : command.NotebookLaunchRequest P U :=
      { CommandParams := cmdParams, User := user }
    let ask1 : Ask P U := ⟨notebooksAddr, AskMsg.launch notebookLaunchReq⟩
    let notebookIDFut := a.AskAt [] notebooksAddr (AskMsg.launch notebookLaunchReq)
    match api.ProcessActorResponseError notebookIDFut with
    | some err => ⟨Outcome.ret none (some err), [ask1]⟩
    | none =>
      match notebookIDFut.Get with
      | ActorValue.taskID notebookID =>
        let ask2 : Ask P U := ⟨notebooksAddr.Child notebookID, AskMsg.notebookQuery⟩
        let notebook := a.AskAt [ask1] (notebooksAddr.Child notebookID) AskMsg.notebookQuery
        match api.ProcessActorResponseError notebook with
        | some err => ⟨Outcome.ret none (some err), [ask1, ask2]⟩
        | none =>
          match notebook.Get with
          | ActorValue.notebook n => ⟨Outcome.ret (some { Notebook := n }) none, [ask1, ask2]⟩
          | _ => ⟨Outcome.panic, [ask1, ask2]⟩
      | _ => ⟨Outcome.panic, [ask1]⟩

/-! ## Concrete inputs used to evaluate the endpoints -/

/-- The stream after `ms` more messages were sent with success. -/
def NotebookLogsServer.delivered (s : NotebookLogsServer)
    (ms : List apiv1.NotebookLogsResponse) : NotebookLogsServer :=
  { s with attempted := s.attempted ++ ms, sent := s.sent ++ ms }

/-- A fresh stream on which every `Send` succeeds. -/
def openStream : NotebookLogsServer :=
  { sendResult := fun _ _ => none, attempted := [], sent := [] }

/-- A fresh stream whose second `Send` (call number 1) fails, the consumer being gone. -/
def brokenStream : NotebookLogsServer :=
  { sendResult := fun k _ => if k = 1 then some ⟨Code.Unavailable, "transport is closing"⟩
      else none
    attempted := [], sent := [] }

/-- A batch of three consecutive entries. -/
def sampleBatch : api.Batch :=
  ⟨[⟨0, "starting"⟩, ⟨1, "running"⟩, ⟨2, "exited"⟩]⟩

/-- An actor system in which the events actor exists and whose bridge polls one batch
of three entries and hands it to the callback. -/
def sampleSystem : ActorSystem :=
  { Get := fun addr => some addr
    uuid := "0f1e2d3c"
    logStream := fun _ _ onBatch resp => onBatch sampleBatch resp }

/-- Sorting identifiers the way a registry of three notebooks is listed: ascending unless
descending order is asked for. -/
def sampleSort (values : List Nat) (orderBy : apiv1.OrderBy)
    (_sortBy _defaultSortBy : apiv1.GetNotebooksRequest_SortBy) : List Nat :=
  match orderBy with
  | apiv1.OrderBy.ORDER_BY_DESC => values.insertionSort (fun x y => y ≤ x)
  | _ => values.insertionSort (fun x y => x ≤ y)

/-- An API server whose registry lists the notebooks 3, 1, 2 (notebooks are their
numeric identifiers), whose pages are cut by `paginate` with a maximum of 100, whose
launch parameters are rejected for the template named "missing", and whose registry
answers a launch with the task id "task-1" supervising notebook 42. -/
def sampleServer : apiServer Unit Unit String String Nat :=
  { actorRequest := fun _ _ => Except.ok { Notebooks := [3, 1, 2], Pagination := none }
    sort := sampleSort
    sort_length := by
      intro values orderBy _ _
      cases orderBy <;> simp [sampleSort, List.length_insertionSort]
    paginate := paginate 100
    prepareLaunchParams := fun params =>
      if params.TemplateName = "missing" then
        Except.error ⟨Code.NotFound, "template not found"⟩
      else Except.ok (params.TemplateName, "admin")
    AskAt := fun _ addr msg =>
      match msg with
      | AskMsg.launch _ => ⟨none, ActorValue.taskID "task-1"⟩
      | AskMsg.notebookQuery =>
        if addr = ⟨["notebooks", "task-1"]⟩ then ⟨none, ActorValue.notebook 42⟩
        else ⟨some ⟨Code.NotFound, "actor not found"⟩, ActorValue.other⟩ }

/-- An API server like `sampleServer` whose registry is unreachable. -/
def downServer : apiServer Unit Unit String String Nat :=
  { sampleServer with
    actorRequest := fun _ _ => Except.error ⟨Code.Unavailable, "registry unreachable"⟩ }

/-! ## Integer conversions -/

theorem toInt32_of_isInt32 (x : Int) (h : isInt32 x) : toInt32 x = x := by
  unfold isInt32 at h
  unfold toInt32 wrapSigned
  norm_num
  omega

theorem toInt_of_isInt32 (x : Int) (h : isInt32 x) : toInt x = x := by
  unfold isInt32 at h
  unfold toInt wrapSigned
  norm_num
  omega

/-! ## The callback `onBatch` -/

theorem delivered_nil (s : NotebookLogsServer) : s.delivered [] = s := by
  cases s
  simp [NotebookLogsServer.delivered]

theorem delivered_delivered (s : NotebookLogsServer)
    (xs ys : List apiv1.NotebookLogsResponse) :
    (s.delivered xs).delivered ys = s.delivered (xs ++ ys) := by
  simp [NotebookLogsServer.delivered, List.append_assoc]

theorem forEachLoop_send_append (pre rest : List logger.Entry) :
    ∀ resp : NotebookLogsServer,
      (∀ i r, pre[i]? = some r →
        resp.sendResult (resp.attempted.length + i) (NotebookLogs.response r) = none) →
      api.forEachLoop NotebookLogs.sendEntry (pre ++ rest) resp =
        api.forEachLoop NotebookLogs.sendEntry rest
          (resp.delivered (pre.map NotebookLogs.response)) := by
  induction pre with
  | nil =>
    intro resp _
    simp [delivered_nil]
  | cons x xs ih =>
    intro resp hok
    have h0 : resp.sendResult resp.attempted.length (NotebookLogs.response x) = none := by
      simpa using hok 0 x (by simp)
    have hstep : NotebookLogs.sendEntry x resp =
        (none, resp.delivered [NotebookLogs.response x]) := by
      simp [NotebookLogs.sendEntry, NotebookLogsServer.Send, h0, NotebookLogsServer.delivered]
    have hrest : ∀ i r, xs[i]? = some r →
        (resp.delivered [NotebookLogs.response x]).sendResult
          ((resp.delivered [NotebookLogs.response x]).attempted.length + i)
          (NotebookLogs.response r) = none := by
      intro i r hi
      have := hok (i + 1) r (by simpa using hi)
      simpa [NotebookLogsServer.delivered, Nat.add_assoc, Nat.add_comm 1 i] using this
    have := ih (resp.delivered [NotebookLogs.response x]) hrest
    rw [delivered_delivered] at this
    simp only [List.cons_append, api.forEachLoop, hstep]
    simpa using this

theorem sendEntry_attempted (lr : logger.Entry) (resp : NotebookLogsServer) :
    (NotebookLogs.sendEntry lr resp).2.attempted =
      resp.attempted ++ [NotebookLogs.response lr] := by
  unfold NotebookLogs.sendEntry NotebookLogsServer.Send
  cases resp.sendResult resp.attempted.length (NotebookLogs.response lr) <;> rfl

/-- C1 (as stated, at a concrete entry): on a 64-bit platform the entry with sequence
id 2147483648 (a non-negative `int`) is sent, with success, as a message whose `Id` is
-2147483648: the conversion `int32(lr.ID)` changed the id; the text is unchanged. -/
theorem sendEntry_id_2147483648_is_changed :
    (0 ≤ (2147483648 : Int) ∧ isInt 2147483648) ∧
    (NotebookLogs.sendEntry ⟨2147483648, "line"⟩ openStream).1 = none ∧
    (NotebookLogs.sendEntry ⟨2147483648, "line"⟩ openStream).2.sent =
      [⟨⟨-2147483648, "line"⟩⟩] ∧
    ((⟨⟨-2147483648, "line"⟩⟩ : apiv1.NotebookLogsResponse).LogEntry.Id ≠ 2147483648) := by
  refine ⟨⟨by decide, by decide⟩, rfl, ?_, by decide⟩
  simp [NotebookLogs.sendEntry, NotebookLogsServer.Send, openStream, NotebookLogs.response,
    toInt32, wrapSigned]

/-- C1 (amended): for every log entry handed to the callback of `onBatch` whose
sequence id is non-negative and below 2^31 (so fits `int32`), the message passed to
`Send` has `Id` equal to the sequence id and `Message` equal to the message of the
entry, and when `Send` succeeds that message is what the stream has delivered. -/
theorem sendEntry_preserves_id_and_message (lr : logger.Entry) (resp : NotebookLogsServer)
    (h0 : 0 ≤ lr.ID) (h1 : lr.ID < 2147483648) :
    (NotebookLogs.sendEntry lr resp).2.attempted =
      resp.attempted ++ [⟨⟨lr.ID, lr.Message⟩⟩] ∧
    ((NotebookLogs.sendEntry lr resp).1 = none →
      (NotebookLogs.sendEntry lr resp).2.sent = resp.sent ++ [⟨⟨lr.ID, lr.Message⟩⟩]) := by
  have hid : toInt32 lr.ID = lr.ID := toInt32_of_isInt32 lr.ID ⟨by omega, by omega⟩
  have hresp : NotebookLogs.response lr = ⟨⟨lr.ID, lr.Message⟩⟩ := by
    simp [NotebookLogs.response, hid]
  refine ⟨by rw [sendEntry_attempted, hresp], ?_⟩
  unfold NotebookLogs.sendEntry NotebookLogsServer.Send
  rw [hresp]
  cases resp.sendResult resp.attempted.length ⟨⟨lr.ID, lr.Message⟩⟩ <;> simp

/-- Witness of `sendEntry_preserves_id_and_message`: the entry with id 7. -/
theorem sendEntry_preserves_id_and_message_witness :
    (NotebookLogs.sendEntry ⟨7, "ready"⟩ openStream).2.attempted =
      openStream.attempted ++ [⟨⟨7, "ready"⟩⟩] ∧
    ((NotebookLogs.sendEntry ⟨7, "ready"⟩ openStream).1 = none →
      (NotebookLogs.sendEntry ⟨7, "ready"⟩ openStream).2.sent =
        openStream.sent ++ [⟨⟨7, "ready"⟩⟩]) :=
  sendEntry_preserves_id_and_message ⟨7, "ready"⟩ openStream (by decide) (by decide)

theorem map_response_eq (l : List logger.Entry) :
    l.map NotebookLogs.response =
      l.map (fun r => (⟨⟨toInt32 r.ID, r.Message⟩⟩ : apiv1.NotebookLogsResponse)) := rfl

theorem onBatch_all_sent (b : api.Batch) (resp : NotebookLogsServer)
    (hok : ∀ i r, b.entries[i]? = some r →
      resp.sendResult (resp.attempted.length + i) (NotebookLogs.response r) = none) :
    (NotebookLogs.onBatch b resp).1 = none ∧
    (NotebookLogs.onBatch b resp).2.attempted =
      resp.attempted ++ b.entries.map NotebookLogs.response ∧
    (NotebookLogs.onBatch b resp).2.sent =
      resp.sent ++ b.entries.map NotebookLogs.response := by
  have h := forEachLoop_send_append b.entries [] resp hok
  simp only [List.append_nil, api.forEachLoop] at h
  simp [NotebookLogs.onBatch, api.Batch.ForEach, h, NotebookLogsServer.delivered]

theorem getElem_opt_append_map {α β : Type} (f : α → β) (pre : List β) (l : List α)
    (i : Nat) (r : α) (h : l[i]? = some r) :
    (pre ++ l.map f)[pre.length + i]? = some (f r) := by
  rw [List.getElem?_append_right (by omega)]
  simp [h]

/-- C2: when the `Send` of every entry of a batch succeeds, `onBatch` returns no error
and has called `Send` exactly once per entry, in the order of the batch. The messages
handed to `Send`, and the messages delivered, are, appended to what the stream held
before, one message per entry in batch order, the message of an entry `r` having
`Id = int32(r.ID)` and `Message = r.Message`; so the `i`-th call of `Send` made by
`onBatch` carries the `i`-th entry of the batch, and the number of calls is the number
of entries: no entry is repeated, skipped, moved or merged with another. -/
theorem onBatch_sends_every_entry_in_order (b : api.Batch) (resp : NotebookLogsServer)
    (hok : ∀ i r, b.entries[i]? = some r →
      resp.sendResult (resp.attempted.length + i) ⟨⟨toInt32 r.ID, r.Message⟩⟩ = none) :
    (NotebookLogs.onBatch b resp).1 = none ∧
    (NotebookLogs.onBatch b resp).2.attempted =
      resp.attempted ++ b.entries.map
        (fun r => (⟨⟨toInt32 r.ID, r.Message⟩⟩ : apiv1.NotebookLogsResponse)) ∧
    (NotebookLogs.onBatch b resp).2.sent =
      resp.sent ++ b.entries.map
        (fun r => (⟨⟨toInt32 r.ID, r.Message⟩⟩ : apiv1.NotebookLogsResponse)) ∧
    (NotebookLogs.onBatch b resp).2.attempted.length =
      resp.attempted.length + b.entries.length ∧
    (∀ i r, b.entries[i]? = some r →
      (NotebookLogs.onBatch b resp).2.attempted[resp.attempted.length + i]? =
        some ⟨⟨toInt32 r.ID, r.Message⟩⟩ ∧
      (NotebookLogs.onBatch b resp).2.sent[resp.sent.length + i]? =
        some ⟨⟨toInt32 r.ID, r.Message⟩⟩) := by
  have h := onBatch_all_sent b resp hok
  rw [map_response_eq] at h
  refine ⟨h.1, h.2.1, h.2.2, ?_, ?_⟩
  · rw [h.2.1, List.length_append, List.length_map]
  · intro i r hi
    rw [h.2.1, h.2.2]
    exact ⟨getElem_opt_append_map _ resp.attempted b.entries i r hi,
      getElem_opt_append_map _ resp.sent b.entries i r hi⟩

/-- Witness of `onBatch_sends_every_entry_in_order`: the entries 0 "starting",
1 "running", 2 "exited" on an open stream are sent as three messages, in that order. -/
theorem onBatch_sends_every_entry_in_order_witness :
    (NotebookLogs.onBatch ⟨[⟨0, "starting"⟩, ⟨1, "running"⟩, ⟨2, "exited"⟩]⟩ openStream).1
      = none ∧
    (NotebookLogs.onBatch ⟨[⟨0, "starting"⟩, ⟨1, "running"⟩, ⟨2, "exited"⟩]⟩
      openStream).2.attempted =
      [⟨⟨0, "starting"⟩⟩, ⟨⟨1, "running"⟩⟩, ⟨⟨2, "exited"⟩⟩] ∧
    (NotebookLogs.onBatch ⟨[⟨0, "starting"⟩, ⟨1, "running"⟩, ⟨2, "exited"⟩]⟩
      openStream).2.sent =
      [⟨⟨0, "starting"⟩⟩, ⟨⟨1, "running"⟩⟩, ⟨⟨2, "exited"⟩⟩] ∧
    (NotebookLogs.onBatch ⟨[⟨0, "starting"⟩, ⟨1, "running"⟩, ⟨2, "exited"⟩]⟩
      openStream).2.attempted.length = 3 ∧
    (NotebookLogs.onBatch ⟨[⟨0, "starting"⟩, ⟨1, "running"⟩, ⟨2, "exited"⟩]⟩
      openStream).2.sent[1]? = some ⟨⟨1, "running"⟩⟩ := by
  have h := onBatch_sends_every_entry_in_order
    ⟨[⟨0, "starting"⟩, ⟨1, "running"⟩, ⟨2, "exited"⟩]⟩ openStream (fun _ _ _ => rfl)
  have e0 : toInt32 0 = 0 := toInt32_of_isInt32 0 (by decide)
  have e1 : toInt32 1 = 1 := toInt32_of_isInt32 1 (by decide)
  have e2 : toInt32 2 = 2 := toInt32_of_isInt32 2 (by decide)
  have h4 := (h.2.2.2.2 1 ⟨1, "running"⟩ rfl).2
  simp only [List.map, e0, e1, e2, openStream, List.nil_append, List.length_nil,
    List.length_cons, Nat.zero_add] at h h4
  exact ⟨h.1, h.2.1, h.2.2.1, h.2.2.2.1, h4⟩

theorem onBatch_first_failure (b : api.Batch) (resp : NotebookLogsServer)
    (k : Nat) (r : logger.Entry) (e : GoError)
    (hok : ∀ i x, i < k → b.entries[i]? = some x →
      resp.sendResult (resp.attempted.length + i) (NotebookLogs.response x) = none)
    (hr : b.entries[k]? = some r)
    (hfail : resp.sendResult (resp.attempted.length + k) (NotebookLogs.response r) = some e) :
    (NotebookLogs.onBatch b resp).1 = some e ∧
    (NotebookLogs.onBatch b resp).2.sent =
      resp.sent ++ (b.entries.take k).map NotebookLogs.response ∧
    (NotebookLogs.onBatch b resp).2.attempted =
      resp.attempted ++ (b.entries.take (k + 1)).map NotebookLogs.response := by
  have hk : k < b.entries.length := by
    rcases List.getElem?_eq_some_iff.mp hr with ⟨h, _⟩
    exact h
  have hsplit : b.entries = b.entries.take k ++ r :: b.entries.drop (k + 1) := by
    have hget : b.entries[k] = r := by
      rcases List.getElem?_eq_some_iff.mp hr with ⟨_, h⟩
      exact h
    rw [← hget, ← List.drop_eq_getElem_cons hk, List.take_append_drop]
  have hpre : ∀ i x, (b.entries.take k)[i]? = some x →
      resp.sendResult (resp.attempted.length + i) (NotebookLogs.response x) = none := by
    intro i x hi
    rw [List.getElem?_take] at hi
    by_cases hik : i < k
    · rw [if_pos hik] at hi
      exact hok i x hik hi
    · rw [if_neg hik] at hi
      cases hi
  have h := forEachLoop_send_append (b.entries.take k) (r :: b.entries.drop (k + 1)) resp hpre
  rw [← hsplit] at h
  have hlen : (b.entries.take k).length = k := by
    rw [List.length_take]; omega
  have hsend : NotebookLogs.sendEntry r
      (resp.delivered ((b.entries.take k).map NotebookLogs.response)) =
      (some e, { resp.delivered ((b.entries.take k).map NotebookLogs.response) with
        attempted := (resp.delivered ((b.entries.take k).map NotebookLogs.response)).attempted
          ++ [NotebookLogs.response r] }) := by
    have hat : (resp.delivered ((b.entries.take k).map NotebookLogs.response)).attempted.length
        = resp.attempted.length + k := by
      simp only [NotebookLogsServer.delivered, List.length_append, List.length_map, hlen]
    have hres : (resp.delivered ((b.entries.take k).map NotebookLogs.response)).sendResult
        = resp.sendResult := rfl
    unfold NotebookLogs.sendEntry NotebookLogsServer.Send
    rw [hat, hres, hfail]
    rfl
  have htake : b.entries.take (k + 1) = b.entries.take k ++ [r] := by
    rw [List.take_succ, hr]; rfl
  simp only [NotebookLogs.onBatch, api.Batch.ForEach, h, api.forEachLoop, hsend]
  simp [NotebookLogsServer.delivered, htake]

/-- C10: when the `Send` of the entry at position `k` of a batch (counted from 0) is the
first to fail, with error `e`, `onBatch` returns exactly `e`, has delivered exactly the
`k` entries before it, in order, and has called `Send` for no entry after it: the
calls of `Send` are those for the first `k + 1` entries, in order, the message of an
entry `x` having `Id = int32(x.ID)` and `Message = x.Message`. -/
theorem onBatch_stops_at_first_failed_send (b : api.Batch) (resp : NotebookLogsServer)
    (k : Nat) (r : logger.Entry) (e : GoError)
    (hok : ∀ i x, i < k → b.entries[i]? = some x →
      resp.sendResult (resp.attempted.length + i) ⟨⟨toInt32 x.ID, x.Message⟩⟩ = none)
    (hr : b.entries[k]? = some r)
    (hfail : resp.sendResult (resp.attempted.length + k) ⟨⟨toInt32 r.ID, r.Message⟩⟩
      = some e) :
    (NotebookLogs.onBatch b resp).1 = some e ∧
    (NotebookLogs.onBatch b resp).2.sent =
      resp.sent ++ (b.entries.take k).map
        (fun x => (⟨⟨toInt32 x.ID, x.Message⟩⟩ : apiv1.NotebookLogsResponse)) ∧
    (NotebookLogs.onBatch b resp).2.attempted =
      resp.attempted ++ (b.entries.take (k + 1)).map
        (fun x => (⟨⟨toInt32 x.ID, x.Message⟩⟩ : apiv1.NotebookLogsResponse)) ∧
    (NotebookLogs.onBatch b resp).2.attempted.length = resp.attempted.length + (k + 1) := by
  have h := onBatch_first_failure b resp k r e hok hr hfail
  rw [map_response_eq, map_response_eq] at h
  refine ⟨h.1, h.2.1, h.2.2, ?_⟩
  have hk : k < b.entries.length := by
    rcases List.getElem?_eq_some_iff.mp hr with ⟨hlt, _⟩
    exact hlt
  rw [h.2.2, List.length_append, List.length_map, List.length_take]
  omega

/-- Witness of `onBatch_stops_at_first_failed_send`: on a stream whose second `Send`
fails, of the entries 0 "starting", 1 "running", 2 "exited" the first is delivered, the
second is attempted and the third is never handed to `Send`. -/
theorem onBatch_stops_at_first_failed_send_witness :
    (NotebookLogs.onBatch ⟨[⟨0, "starting"⟩, ⟨1, "running"⟩, ⟨2, "exited"⟩]⟩
      brokenStream).1 = some ⟨Code.Unavailable, "transport is closing"⟩ ∧
    (NotebookLogs.onBatch ⟨[⟨0, "starting"⟩, ⟨1, "running"⟩, ⟨2, "exited"⟩]⟩
      brokenStream).2.sent = [⟨⟨0, "starting"⟩⟩] ∧
    (NotebookLogs.onBatch ⟨[⟨0, "starting"⟩, ⟨1, "running"⟩, ⟨2, "exited"⟩]⟩
      brokenStream).2.attempted = [⟨⟨0, "starting"⟩⟩, ⟨⟨1, "running"⟩⟩] ∧
    (NotebookLogs.onBatch ⟨[⟨0, "starting"⟩, ⟨1, "running"⟩, ⟨2, "exited"⟩]⟩
      brokenStream).2.attempted.length = 2 := by
  have h := onBatch_stops_at_first_failed_send
    ⟨[⟨0, "starting"⟩, ⟨1, "running"⟩, ⟨2, "exited"⟩]⟩ brokenStream 1 ⟨1, "running"⟩
    ⟨Code.Unavailable, "transport is closing"⟩
    (fun i _ hi _ => by
      have hi0 : i = 0 := by omega
      subst hi0
      rfl)
    rfl rfl
  have e0 : toInt32 0 = 0 := toInt32_of_isInt32 0 (by decide)
  have e1 : toInt32 1 = 1 := toInt32_of_isInt32 1 (by decide)
  simp only [List.take, List.map, e0, e1, brokenStream, List.nil_append, List.length_nil,
    Nat.zero_add] at h
  exact h

/-! ## The endpoint `NotebookLogs` -/

theorem validate_negative_limit (limit : Int) (h : limit < 0) :
    grpcutil.ValidateRequest [grpcutil.ValidateLimit limit] =
      some ⟨Code.InvalidArgument, "Limit must be >= 0"⟩ := by
  have : ¬ (0 ≤ limit) := not_le.mpr h
  simp [grpcutil.ValidateRequest, grpcutil.ValidateLimit, this]

theorem validate_nonneg_limit (limit : Int) (h : 0 ≤ limit) :
    grpcutil.ValidateRequest [grpcutil.ValidateLimit limit] = none := by
  simp [grpcutil.ValidateRequest, grpcutil.ValidateLimit, h]

theorem NotebookLogs_of_valid (system : ActorSystem) (req : apiv1.NotebookLogsRequest)
    (resp : NotebookLogsServer)
    (hv : grpcutil.ValidateRequest [grpcutil.ValidateLimit req.Limit] = none) :
    NotebookLogs system req resp =
      ⟨(system.logStream (system.Get ⟨["notebooks", req.NotebookId, "events"]⟩)
          ⟨toInt req.Offset, toInt req.Limit, req.Follow⟩ NotebookLogs.onBatch resp).1,
        [LogsEffect.get ⟨["notebooks", req.NotebookId, "events"]⟩,
         LogsEffect.actorOf ⟨["notebooks", req.NotebookId, "logStream-" ++ system.uuid]⟩
           (system.Get ⟨["notebooks", req.NotebookId, "events"]⟩)
           ⟨toInt req.Offset, toInt req.Limit, req.Follow⟩],
        (system.logStream (system.Get ⟨["notebooks", req.NotebookId, "events"]⟩)
          ⟨toInt req.Offset, toInt req.Limit, req.Follow⟩ NotebookLogs.onBatch resp).2⟩ := by
  unfold NotebookLogs
  rw [hv]
  rfl

/-- C3: a request whose limit is negative is rejected with an `InvalidArgument` error
before anything is read: `NotebookLogs` makes no call on the actor system (neither the
lookup of the events actor nor the creation of the log-stream bridge) and the stream is
left as it was, nothing having been sent. -/
theorem NotebookLogs_negative_limit_rejected (system : ActorSystem)
    (req : apiv1.NotebookLogsRequest) (resp : NotebookLogsServer) (h : req.Limit < 0) :
    (∃ msg, (NotebookLogs system req resp).err = some ⟨Code.InvalidArgument, msg⟩) ∧
    (NotebookLogs system req resp).effects = [] ∧
    (NotebookLogs system req resp).resp = resp := by
  unfold NotebookLogs
  rw [validate_negative_limit req.Limit h]
  exact ⟨⟨_, rfl⟩, rfl, rfl⟩

/-- Witness of `NotebookLogs_negative_limit_rejected`: limit -1. -/
theorem NotebookLogs_negative_limit_rejected_witness :
    (∃ msg, (NotebookLogs sampleSystem ⟨"nb-1", 0, -1, true⟩ openStream).err =
      some ⟨Code.InvalidArgument, msg⟩) ∧
    (NotebookLogs sampleSystem ⟨"nb-1", 0, -1, true⟩ openStream).effects = [] ∧
    (NotebookLogs sampleSystem ⟨"nb-1", 0, -1, true⟩ openStream).resp = openStream :=
  NotebookLogs_negative_limit_rejected sampleSystem ⟨"nb-1", 0, -1, true⟩ openStream
    (by decide)

/-- C4 (as stated, at a concrete request): with offset -1 and limit 0 `NotebookLogs`
does not stop before reading: it looks up the events actor and creates the log-stream
bridge, handing it the query with offset -1. -/
theorem NotebookLogs_negative_offset_creates_bridge :
    (NotebookLogs sampleSystem ⟨"nb-1", -1, 0, false⟩ openStream).effects =
      [LogsEffect.get ⟨["notebooks", "nb-1", "events"]⟩,
       LogsEffect.actorOf ⟨["notebooks", "nb-1", "logStream-0f1e2d3c"]⟩
         (some ⟨["notebooks", "nb-1", "events"]⟩) ⟨-1, 0, false⟩] ∧
    (NotebookLogs sampleSystem ⟨"nb-1", -1, 0, false⟩ openStream).effects ≠ [] := by
  have h := NotebookLogs_of_valid sampleSystem ⟨"nb-1", -1, 0, false⟩ openStream
    (validate_nonneg_limit 0 (by decide))
  have h1 : toInt (-1) = -1 := toInt_of_isInt32 (-1) (by decide)
  have h0 : toInt 0 = 0 := toInt_of_isInt32 0 (by decide)
  rw [h]
  simp only [h1, h0]
  exact ⟨rfl, by simp⟩

/-- C4 (amended): for a request whose offset is negative, `NotebookLogs` fails with
`InvalidArgument` before any data is read, without any call on the actor system, when
its limit is negative; when its limit is not negative the offset is not checked: the
events actor is looked up, the log-stream bridge is created with a query whose offset
is the negative offset of the request, and the result is the result of the bridge. -/
theorem NotebookLogs_negative_offset_not_validated (system : ActorSystem)
    (req : apiv1.NotebookLogsRequest) (resp : NotebookLogsServer)
    (hneg : req.Offset < 0) (ho : isInt32 req.Offset) (hl : isInt32 req.Limit) :
    (req.Limit < 0 →
      (∃ msg, (NotebookLogs system req resp).err = some ⟨Code.InvalidArgument, msg⟩) ∧
      (NotebookLogs system req resp).effects = []) ∧
    (0 ≤ req.Limit →
      (NotebookLogs system req resp).effects =
        [LogsEffect.get ⟨["notebooks", req.NotebookId, "events"]⟩,
         LogsEffect.actorOf ⟨["notebooks", req.NotebookId, "logStream-" ++ system.uuid]⟩
           (system.Get ⟨["notebooks", req.NotebookId, "events"]⟩)
           ⟨req.Offset, req.Limit, req.Follow⟩] ∧
      (NotebookLogs system req resp).err =
        (system.logStream (system.Get ⟨["notebooks", req.NotebookId, "events"]⟩)
          ⟨req.Offset, req.Limit, req.Follow⟩ NotebookLogs.onBatch resp).1 ∧
      (⟨req.Offset, req.Limit, req.Follow⟩ : api.BatchRequest).Offset < 0) := by
  constructor
  · intro h
    unfold NotebookLogs
    rw [validate_negative_limit req.Limit h]
    exact ⟨⟨_, rfl⟩, rfl⟩
  · intro h
    rw [NotebookLogs_of_valid system req resp (validate_nonneg_limit req.Limit h),
      toInt_of_isInt32 req.Offset ho, toInt_of_isInt32 req.Limit hl]
    exact ⟨rfl, rfl, hneg⟩

/-- Witness of `NotebookLogs_negative_offset_not_validated`: offset -5, limit 10. -/
theorem NotebookLogs_negative_offset_not_validated_witness :
    ((10 : Int) < 0 →
      (∃ msg, (NotebookLogs sampleSystem ⟨"nb-1", -5, 10, true⟩ openStream).err =
        some ⟨Code.InvalidArgument, msg⟩) ∧
      (NotebookLogs sampleSystem ⟨"nb-1", -5, 10, true⟩ openStream).effects = []) ∧
    ((0 : Int) ≤ 10 →
      (NotebookLogs sampleSystem ⟨"nb-1", -5, 10, true⟩ openStream).effects =
        [LogsEffect.get ⟨["notebooks", "nb-1", "events"]⟩,
         LogsEffect.actorOf ⟨["notebooks", "nb-1", "logStream-" ++ sampleSystem.uuid]⟩
           (sampleSystem.Get ⟨["notebooks", "nb-1", "events"]⟩)
           ⟨-5, 10, true⟩] ∧
      (NotebookLogs sampleSystem ⟨"nb-1", -5, 10, true⟩ openStream).err =
        (sampleSystem.logStream (sampleSystem.Get ⟨["notebooks", "nb-1", "events"]⟩)
          ⟨-5, 10, true⟩ NotebookLogs.onBatch openStream).1 ∧
      (⟨-5, 10, true⟩ : api.BatchRequest).Offset < 0) :=
  NotebookLogs_negative_offset_not_validated sampleSystem ⟨"nb-1", -5, 10, true⟩ openStream
    (by decide) (by decide) (by decide)

/-- C5: for a request that passes validation, the log-stream bridge is created with the
query whose `Offset`, `Limit` and `Follow` are those of the request (the conversions
`int(req.Offset)` and `int(req.Limit)` of `int32` values change nothing, so a limit of
0 arrives as 0), and what `NotebookLogs` returns is what the bridge run on that query
and on `onBatch` returns. -/
theorem NotebookLogs_query_equals_request (system : ActorSystem)
    (req : apiv1.NotebookLogsRequest) (resp : NotebookLogsServer)
    (ho : isInt32 req.Offset) (hl : isInt32 req.Limit)
    (hv : grpcutil.ValidateRequest [grpcutil.ValidateLimit req.Limit] = none) :
    (NotebookLogs system req resp).effects =
      [LogsEffect.get ⟨["notebooks", req.NotebookId, "events"]⟩,
       LogsEffect.actorOf ⟨["notebooks", req.NotebookId, "logStream-" ++ system.uuid]⟩
         (system.Get ⟨["notebooks", req.NotebookId, "events"]⟩)
         ⟨req.Offset, req.Limit, req.Follow⟩] ∧
    (NotebookLogs system req resp).err =
      (system.logStream (system.Get ⟨["notebooks", req.NotebookId, "events"]⟩)
        ⟨req.Offset, req.Limit, req.Follow⟩ NotebookLogs.onBatch resp).1 ∧
    (NotebookLogs system req resp).resp =
      (system.logStream (system.Get ⟨["notebooks", req.NotebookId, "events"]⟩)
        ⟨req.Offset, req.Limit, req.Follow⟩ NotebookLogs.onBatch resp).2 := by
  rw [NotebookLogs_of_valid system req resp hv, toInt_of_isInt32 req.Offset ho,
    toInt_of_isInt32 req.Limit hl]
  exact ⟨rfl, rfl, rfl⟩

/-- Witness of `NotebookLogs_query_equals_request`: offset 4, limit 0, follow. -/
theorem NotebookLogs_query_equals_request_witness :
    (NotebookLogs sampleSystem ⟨"nb-1", 4, 0, true⟩ openStream).effects =
      [LogsEffect.get ⟨["notebooks", "nb-1", "events"]⟩,
       LogsEffect.actorOf ⟨["notebooks", "nb-1", "logStream-" ++ sampleSystem.uuid]⟩
         (sampleSystem.Get ⟨["notebooks", "nb-1", "events"]⟩)
         ⟨4, 0, true⟩] ∧
    (NotebookLogs sampleSystem ⟨"nb-1", 4, 0, true⟩ openStream).err =
      (sampleSystem.logStream (sampleSystem.Get ⟨["notebooks", "nb-1", "events"]⟩)
        ⟨4, 0, true⟩ NotebookLogs.onBatch openStream).1 ∧
    (NotebookLogs sampleSystem ⟨"nb-1", 4, 0, true⟩ openStream).resp =
      (sampleSystem.logStream (sampleSystem.Get ⟨["notebooks", "nb-1", "events"]⟩)
        ⟨4, 0, true⟩ NotebookLogs.onBatch openStream).2 :=
  NotebookLogs_query_equals_request sampleSystem ⟨"nb-1", 4, 0, true⟩ openStream
    (by decide) (by decide) (by decide)

/-! ## The endpoint `GetNotebooks` -/

theorem GetNotebooks_of_ok {C F P U N : Type} (a : apiServer C F P U N)
    (req : apiv1.GetNotebooksRequest) (r : apiv1.GetNotebooksResponse N)
    (hr : a.actorRequest "/notebooks" req = Except.ok r) :
    GetNotebooks a req =
      ⟨some { Notebooks := (a.paginate r.Pagination
                (a.sort r.Notebooks req.OrderBy req.SortBy
                  apiv1.GetNotebooksRequest_SortBy.SORT_BY_ID) req.Offset req.Limit).values,
              Pagination := (a.paginate r.Pagination
                (a.sort r.Notebooks req.OrderBy req.SortBy
                  apiv1.GetNotebooksRequest_SortBy.SORT_BY_ID) req.Offset req.Limit).pagination },
        (a.paginate r.Pagination
          (a.sort r.Notebooks req.OrderBy req.SortBy
            apiv1.GetNotebooksRequest_SortBy.SORT_BY_ID) req.Offset req.Limit).err,
        [ListEffect.actorRequest "/notebooks",
         ListEffect.sort r.Notebooks req.OrderBy req.SortBy
           apiv1.GetNotebooksRequest_SortBy.SORT_BY_ID,
         ListEffect.paginate r.Pagination
           (a.sort r.Notebooks req.OrderBy req.SortBy
             apiv1.GetNotebooksRequest_SortBy.SORT_BY_ID) req.Offset req.Limit]⟩ := by
  unfold GetNotebooks
  rw [hr]

/-- C6: when the registry answers with a list of `T` notebooks and the requested offset
is at least `T`, `GetNotebooks` returns no error and a response whose page of notebooks
is empty and whose pagination info has total count `T`, whatever the limit is. -/
theorem GetNotebooks_offset_beyond_total {C F P U N : Type} (a : apiServer C F P U N)
    (maxLimit : Nat) (req : apiv1.GetNotebooksRequest) (r : apiv1.GetNotebooksResponse N)
    (hp : a.paginate = paginate maxLimit)
    (hr : a.actorRequest "/notebooks" req = Except.ok r)
    (hoff : (r.Notebooks.length : Int) ≤ req.Offset) :
    (GetNotebooks a req).err = none ∧
    (GetNotebooks a req).resp.map (fun resp => resp.Notebooks) = some [] ∧
    (GetNotebooks a req).resp.map (fun resp => resp.Pagination) =
      some (some { Total := (r.Notebooks.length : Int) }) := by
  rw [GetNotebooks_of_ok a req r hr, hp]
  have hlen := a.sort_length r.Notebooks req.OrderBy req.SortBy
    apiv1.GetNotebooksRequest_SortBy.SORT_BY_ID
  refine ⟨rfl, ?_, ?_⟩
  · have hdrop : List.drop req.Offset.toNat (a.sort r.Notebooks req.OrderBy req.SortBy
        apiv1.GetNotebooksRequest_SortBy.SORT_BY_ID) = [] := by
      apply List.drop_eq_nil_of_le
      rw [hlen]
      omega
    simp [paginate, hdrop]
  · simp [paginate, hlen]

/-- Witness of `GetNotebooks_offset_beyond_total`: three notebooks, offset 3, limit 2. -/
theorem GetNotebooks_offset_beyond_total_witness :
    (GetNotebooks sampleServer ⟨.SORT_BY_ID, .ORDER_BY_ASC, 3, 2⟩).err = none ∧
    (GetNotebooks sampleServer ⟨.SORT_BY_ID, .ORDER_BY_ASC, 3, 2⟩).resp.map
      (fun resp => resp.Notebooks) = some [] ∧
    (GetNotebooks sampleServer ⟨.SORT_BY_ID, .ORDER_BY_ASC, 3, 2⟩).resp.map
      (fun resp => resp.Pagination) =
      some (some { Total := (([3, 1, 2] : List Nat).length : Int) }) :=
  GetNotebooks_offset_beyond_total sampleServer 100 ⟨.SORT_BY_ID, .ORDER_BY_ASC, 3, 2⟩
    { Notebooks := [3, 1, 2], Pagination := none } rfl rfl (by decide)

/-- C9: when the registry request fails, `GetNotebooks` returns that error with a nil
response and calls neither `sort` nor `paginate`. When it succeeds, `GetNotebooks`
calls `sort` on the complete list of the registry with the requested order and key and
with `SORT_BY_ID` as default key, then calls `paginate` with the requested offset and
limit on the sorted list; the returned page and error are what `paginate` yields on
the sorted list, so with `paginate` cutting windows the page is the window of the
sorted complete list that starts at the offset. -/
theorem GetNotebooks_sorts_then_paginates {C F P U N : Type} (a : apiServer C F P U N)
    (req : apiv1.GetNotebooksRequest) :
    (∀ e, a.actorRequest "/notebooks" req = Except.error e →
      (GetNotebooks a req).resp.isNone = true ∧
      (GetNotebooks a req).err = some e ∧
      (GetNotebooks a req).effects = [ListEffect.actorRequest "/notebooks"]) ∧
    (∀ r, a.actorRequest "/notebooks" req = Except.ok r →
      (GetNotebooks a req).effects =
        [ListEffect.actorRequest "/notebooks",
         ListEffect.sort r.Notebooks req.OrderBy req.SortBy
           apiv1.GetNotebooksRequest_SortBy.SORT_BY_ID,
         ListEffect.paginate r.Pagination
           (a.sort r.Notebooks req.OrderBy req.SortBy
             apiv1.GetNotebooksRequest_SortBy.SORT_BY_ID) req.Offset req.Limit] ∧
      (GetNotebooks a req).resp.map (fun resp => resp.Notebooks) =
        some (a.paginate r.Pagination
          (a.sort r.Notebooks req.OrderBy req.SortBy
            apiv1.GetNotebooksRequest_SortBy.SORT_BY_ID) req.Offset req.Limit).values ∧
      (GetNotebooks a req).err =
        (a.paginate r.Pagination
          (a.sort r.Notebooks req.OrderBy req.SortBy
            apiv1.GetNotebooksRequest_SortBy.SORT_BY_ID) req.Offset req.Limit).err ∧
      (∀ maxLimit, a.paginate = paginate maxLimit →
        (GetNotebooks a req).resp.map (fun resp => resp.Notebooks) =
          some (((a.sort r.Notebooks req.OrderBy req.SortBy
            apiv1.GetNotebooksRequest_SortBy.SORT_BY_ID).drop req.Offset.toNat).take
              (pageSize maxLimit req.Limit)))) := by
  constructor
  · intro e he
    unfold GetNotebooks
    rw [he]
    exact ⟨rfl, rfl, rfl⟩
  · intro r hr
    rw [GetNotebooks_of_ok a req r hr]
    refine ⟨rfl, rfl, rfl, ?_⟩
    intro maxLimit hp
    rw [hp]
    rfl

/-- Witness of `GetNotebooks_sorts_then_paginates`, success: the registry lists 3, 1, 2
and the first page of two, in ascending order, is 1, 2 (sorting the first two listed
notebooks instead would give 1, 3). -/
theorem GetNotebooks_sorts_then_paginates_witness :
    (GetNotebooks sampleServer ⟨.SORT_BY_UNSPECIFIED, .ORDER_BY_ASC, 0, 2⟩).resp.map
      (fun resp => resp.Notebooks) = some [1, 2] ∧
    sampleServer.sort ([3, 1, 2].take 2) .ORDER_BY_ASC .SORT_BY_UNSPECIFIED .SORT_BY_ID
      = [1, 3] ∧
    (GetNotebooks downServer ⟨.SORT_BY_UNSPECIFIED, .ORDER_BY_ASC, 0, 2⟩).effects =
      [ListEffect.actorRequest "/notebooks"] := by
  have h := GetNotebooks_sorts_then_paginates sampleServer
    ⟨.SORT_BY_UNSPECIFIED, .ORDER_BY_ASC, 0, 2⟩
  have hd := GetNotebooks_sorts_then_paginates downServer
    ⟨.SORT_BY_UNSPECIFIED, .ORDER_BY_ASC, 0, 2⟩
  refine ⟨?_, by decide, ((hd.1 ⟨Code.Unavailable, "registry unreachable"⟩ rfl).2).2⟩
  rw [(h.2 { Notebooks := [3, 1, 2], Pagination := none } rfl).2.2.2 100 rfl]
  decide

/-! ## The endpoint `LaunchNotebook` -/

/-- C7: when `prepareLaunchParams` fails, `LaunchNotebook` returns its error with a nil
response and has asked no actor: neither the launch request to the notebooks registry
nor the query of a supervisor was sent. -/
theorem LaunchNotebook_prepare_error {C F P U N : Type} (a : apiServer C F P U N)
    (req : apiv1.LaunchNotebookRequest C F) (e : GoError)
    (h : a.prepareLaunchParams
      { TemplateName := req.TemplateName, Config := req.Config, Files := req.Files } =
        Except.error e) :
    (LaunchNotebook a req).outcome = Outcome.ret none (some e) ∧
    (LaunchNotebook a req).asks = [] := by
  unfold LaunchNotebook
  rw [h]
  exact ⟨rfl, rfl⟩

/-- Witness of `LaunchNotebook_prepare_error`: the template "missing". -/
theorem LaunchNotebook_prepare_error_witness :
    (LaunchNotebook sampleServer ⟨"missing", (), ()⟩).outcome =
      Outcome.ret none (some ⟨Code.NotFound, "template not found"⟩) ∧
    (LaunchNotebook sampleServer ⟨"missing", (), ()⟩).asks = [] :=
  LaunchNotebook_prepare_error sampleServer ⟨"missing", (), ()⟩
    ⟨Code.NotFound, "template not found"⟩ rfl

/-- C8: after the launch parameters were prepared, if the launch ask to the registry
fails `LaunchNotebook` returns its error with a nil response and asks nothing else; if
it succeeds with task id `t`, the one further ask is the notebook query addressed to
`notebooks/t`, and when that query succeeds with notebook `n` the response returned,
without error, holds exactly `n`. -/
theorem LaunchNotebook_queries_launched_supervisor {C F P U N : Type}
    (a : apiServer C F P U N) (req : apiv1.LaunchNotebookRequest C F) (p : P) (u : U)
    (hprep : a.prepareLaunchParams
      { TemplateName := req.TemplateName, Config := req.Config, Files := req.Files } =
        Except.ok (p, u)) :
    (∀ e, api.ProcessActorResponseError
        (a.AskAt [] notebooksAddr (AskMsg.launch ⟨p, u⟩)) = some e →
      (LaunchNotebook a req).outcome = Outcome.ret none (some e) ∧
      (LaunchNotebook a req).asks = [⟨notebooksAddr, AskMsg.launch ⟨p, u⟩⟩]) ∧
    (∀ t, api.ProcessActorResponseError
        (a.AskAt [] notebooksAddr (AskMsg.launch ⟨p, u⟩)) = none →
      (a.AskAt [] notebooksAddr (AskMsg.launch ⟨p, u⟩)).Get = ActorValue.taskID t →
      (LaunchNotebook a req).asks =
        [⟨notebooksAddr, AskMsg.launch ⟨p, u⟩⟩,
         ⟨⟨["notebooks", t]⟩, AskMsg.notebookQuery⟩] ∧
      (∀ n, api.ProcessActorResponseError
          (a.AskAt [⟨notebooksAddr, AskMsg.launch ⟨p, u⟩⟩] ⟨["notebooks", t]⟩
            AskMsg.notebookQuery) = none →
        (a.AskAt [⟨notebooksAddr, AskMsg.launch ⟨p, u⟩⟩] ⟨["notebooks", t]⟩
            AskMsg.notebookQuery).Get = ActorValue.notebook n →
        (LaunchNotebook a req).outcome = Outcome.ret (some { Notebook := n }) none)) := by
  constructor
  · intro e he
    constructor <;> simp [LaunchNotebook, hprep, he]
  · intro t hok ht
    have haddr : notebooksAddr.Child t = ⟨["notebooks", t]⟩ := rfl
    constructor
    · simp only [LaunchNotebook, hprep, hok, ht, haddr]
      cases h2 : api.ProcessActorResponseError
          (a.AskAt [⟨notebooksAddr, AskMsg.launch ⟨p, u⟩⟩] ⟨["notebooks", t]⟩
            AskMsg.notebookQuery) with
      | some e2 => rfl
      | none =>
        cases h3 : (a.AskAt [⟨notebooksAddr, AskMsg.launch ⟨p, u⟩⟩] ⟨["notebooks", t]⟩
            AskMsg.notebookQuery).Get <;> rfl
    · intro n hok2 hn
      simp only [LaunchNotebook, hprep, hok, ht, haddr, hok2, hn]

/-- Witness of `LaunchNotebook_queries_launched_supervisor`: the registry answers
"task-1" and the supervisor `notebooks/task-1` answers notebook 42. -/
theorem LaunchNotebook_queries_launched_supervisor_witness :
    (LaunchNotebook sampleServer ⟨"jupyter", (), ()⟩).asks =
      [⟨notebooksAddr, AskMsg.launch ⟨"jupyter", "admin"⟩⟩,
       ⟨⟨["notebooks", "task-1"]⟩, AskMsg.notebookQuery⟩] ∧
    (LaunchNotebook sampleServer ⟨"jupyter", (), ()⟩).outcome =
      Outcome.ret (some { Notebook := 42 }) none := by
  have h := (LaunchNotebook_queries_launched_supervisor sampleServer ⟨"jupyter", (), ()⟩
    "jupyter" "admin" rfl).2 "task-1" rfl rfl
  exact ⟨h.1, h.2 42 rfl rfl⟩

end Determined
